import Mathlib

/-!
Shallow embedding of the DeepVO training repository (two files:
`curriculum.py` and `Trainer.py`), together with theorems settling the
behavioural claims made by the repository's specification.

Conventions of the embedding:
* `float` values (losses, scale factors) are modelled as rationals `ℚ`;
  all the properties of interest are control-flow properties, not
  floating-point rounding properties.
* The neural network, dataset, optimizer and file system are external
  collaborators.  Calls into them (`model.forward`, `loss.backward()`,
  `optimizer.step()`, `model.detach_LSTM_hidden()`,
  `model.reset_LSTM_hidden()`, `model.zero_grad()`, `np.savetxt`) are
  recorded as events in an explicit trace.  `model.forward` outputs and
  dataset ground truths are inputs of the embedding (fields of `Sample`);
  the sum of the squared-error elements computed by
  `nn.MSELoss(reduction = sum)` is the function `mseSum`.
* Python exceptions are modelled by an `Option RunError` component of the
  result, together with the state as mutated up to the raise point (the
  mutations performed before an exception persist on the Python object).
-/

namespace DeepVO

/-- Python runtime errors relevant to this repository. -/
inductive RunError where
  | nameError
  | indexError
deriving DecidableEq

/-! ## curriculum.py -/

/-- ceil(x * 1.5) on a natural number, the value of `int(np.ceil(x*1.5))`. -/
def ceil15 (x : ℕ) : ℕ := (3 * x + 1) / 2

/-- State of `Curriculum` (curriculum.py).  `current_loss` is initialised to
`np.inf` (modelled as `none`) and never read nor written afterwards. -/
structure Curriculum where
  good_loss : ℚ
  min_frames : ℕ
  max_frames : ℕ
  current_loss : Option ℚ
  cur_seqlen : ℕ
deriving DecidableEq

/-- Curriculum.__init__ with explicit arguments (Python defaults:
good_loss = 9e-3, min_frames = 5, max_frames = 1095). -/
def Curriculum.init (good_loss : ℚ) (min_frames max_frames : ℕ) : Curriculum :=
  { good_loss := good_loss
    min_frames := min_frames
    max_frames := max_frames
    current_loss := none
    cur_seqlen := min_frames }

/-- Curriculum() with the default constructor arguments. -/
def Curriculum.default : Curriculum := Curriculum.init (9 / 1000) 5 1095

/-- Result of Curriculum.step: the state as mutated so far, plus the raised
exception, if any. -/
structure CStep where
  state : Curriculum
  err : Option RunError
deriving DecidableEq

/-- Curriculum.step(cur_loss).  `r` models the draw
`np.random.randint(self.cur_seqlen, int(np.ceil(self.cur_seqlen*1.5)))`;
callers constrain `cur_seqlen ≤ r < ceil15 cur_seqlen`.  In the good-loss
branch the source first executes `self.cur_seqlen += r` and then evaluates
`if self.cur_seqlen > max_frames:` where `max_frames` is a bare name bound
neither locally nor at module scope, so a NameError is raised after the
increment has mutated the object; the clamping assignment is unreachable. -/
def Curriculum.step (c : Curriculum) (cur_loss : ℚ) (r : ℕ) : CStep :=
  if cur_loss ≤ c.good_loss then
    { state := { c with cur_seqlen := c.cur_seqlen + r }
      err := some RunError.nameError }
  else
    { state := c, err := none }

/-! ## Claims C1 and C2 (curriculum) -/

/-- C1 counterexample: with the default curriculum (`good_loss = 9e-3`,
`min_frames = 5`, `max_frames = 1095`, so `cur_seqlen = 5`) and the legal
draw `r = 5` (`5 ≤ 5 < ceil15 5 = 8`), a step at the good loss `0.005`
yields `cur_seqlen = 10`, which violates the claimed upper bound
`min(max_frames, ceil(5 * 1.5)) = 8`: the source grows the length BY the
draw instead of setting it TO the draw, and the clamp never executes. -/
theorem curriculum_step_bound_counterexample :
    (5 / 1000 : ℚ) ≤ Curriculum.default.good_loss ∧
    Curriculum.default.cur_seqlen ≤ 5 ∧ 5 < ceil15 Curriculum.default.cur_seqlen ∧
    ¬ ((Curriculum.default.step (5 / 1000) 5).state.cur_seqlen ≤
        min Curriculum.default.max_frames (ceil15 Curriculum.default.cur_seqlen)) := by
  refine ⟨by norm_num [Curriculum.default, Curriculum.init], by decide, by decide, ?_⟩
  have h : (Curriculum.default.step (5 / 1000) 5).state.cur_seqlen = 10 := by
    norm_num [Curriculum.step, Curriculum.default, Curriculum.init]
  rw [h]
  decide

/-- C1 (amended): for any legal draw `cur_seqlen ≤ r < ceil15 cur_seqlen`,
a step at a loss `≤ good_loss` sets `cur_seqlen` to `old + r`, so the new
value satisfies `2 * old ≤ new ≤ old + ceil15 old - 1` (in particular it
never decreases), and the step then raises a NameError (the unbound
`max_frames` clamp); a step at a loss `> good_loss` leaves the state
unchanged and raises nothing. -/
theorem curriculum_step_growth (c : Curriculum) (cur_loss : ℚ) (r : ℕ)
    (hlo : c.cur_seqlen ≤ r) (hhi : r < ceil15 c.cur_seqlen) :
    (cur_loss ≤ c.good_loss →
      (c.step cur_loss r).state.cur_seqlen = c.cur_seqlen + r ∧
      2 * c.cur_seqlen ≤ (c.step cur_loss r).state.cur_seqlen ∧
      (c.step cur_loss r).state.cur_seqlen + 1 ≤ c.cur_seqlen + ceil15 c.cur_seqlen ∧
      (c.step cur_loss r).err = some RunError.nameError) ∧
    (c.good_loss < cur_loss → c.step cur_loss r = { state := c, err := none }) := by
  constructor
  · intro hle
    have hstate : (c.step cur_loss r).state.cur_seqlen = c.cur_seqlen + r := by
      simp [Curriculum.step, hle]
    have herr : (c.step cur_loss r).err = some RunError.nameError := by
      simp [Curriculum.step, hle]
    refine ⟨hstate, ?_, ?_, herr⟩
    · rw [hstate]; omega
    · rw [hstate]; omega
  · intro hgt
    simp [Curriculum.step, not_le.mpr hgt]

/-- C1 witness: instantiating `curriculum_step_growth` at the default
curriculum with the draw `r = 6` and the losses `0.005` (good) and `1`
(bad). -/
theorem curriculum_step_growth_witness :
    (Curriculum.default.cur_seqlen ≤ 6 ∧ 6 < ceil15 Curriculum.default.cur_seqlen) ∧
    (Curriculum.default.step (5 / 1000) 6).state.cur_seqlen = Curriculum.default.cur_seqlen + 6 ∧
    (Curriculum.default.step (5 / 1000) 6).err = some RunError.nameError ∧
    Curriculum.default.step 1 6 = { state := Curriculum.default, err := none } := by
  refine ⟨⟨by decide, by decide⟩, ?_, ?_, ?_⟩
  · exact ((curriculum_step_growth Curriculum.default (5 / 1000) 6
      (by decide) (by decide)).1 (by norm_num [Curriculum.default, Curriculum.init])).1
  · exact ((curriculum_step_growth Curriculum.default (5 / 1000) 6
      (by decide) (by decide)).1 (by norm_num [Curriculum.default, Curriculum.init])).2.2.2
  · exact (curriculum_step_growth Curriculum.default 1 6
      (by decide) (by decide)).2 (by norm_num [Curriculum.default, Curriculum.init])

/-- A default-configured curriculum whose current sequence length has grown
to 1000 (still below max_frames = 1095). -/
def curriculum1000 : Curriculum :=
  { good_loss := 9 / 1000
    min_frames := 5
    max_frames := 1095
    current_loss := none
    cur_seqlen := 1000 }

/-- C2: the claimed clamping never happens.  Every good-loss step raises a
NameError, because the comparison `self.cur_seqlen > max_frames` references
the bare undefined name `max_frames` instead of the instance field
`self.max_frames`; the growth performed before the raise is unclamped, so
`cur_seqlen` can exceed `max_frames = 1095` (from 1000, the legal draw
r = 1000 < ceil15 1000 = 1500 yields 2000). -/
theorem curriculum_step_nameError :
    (Curriculum.default.step (5 / 1000) 5).err = some RunError.nameError ∧
    (curriculum1000.step (5 / 1000) 1000).state.cur_seqlen = 2000 ∧
    curriculum1000.cur_seqlen ≤ 1000 ∧ 1000 < ceil15 curriculum1000.cur_seqlen ∧
    curriculum1000.max_frames < (curriculum1000.step (5 / 1000) 1000).state.cur_seqlen := by
  have h2 : (curriculum1000.step (5 / 1000) 1000).state.cur_seqlen = 2000 := by
    norm_num [Curriculum.step, curriculum1000]
  refine ⟨?_, h2, by decide, by decide, ?_⟩
  · norm_num [Curriculum.step, Curriculum.default, Curriculum.init]
  · rw [h2]; decide

/-! ## Trainer.py: data model -/

/-- Commandline arguments consumed by Trainer (`self.args`). -/
structure Args where
  nepochs : ℤ
  debug : Bool
  debugIters : ℕ
  trainBatch : ℤ
  gradClip : Option ℚ
deriving DecidableEq

/-- One item of a dataset: the model's forward outputs on the item's input
(the model is an external collaborator, so its outputs are inputs of the
embedding), the ground truths, the metadata, and the end-of-sequence flag.
`train_set[i]` / `val_set[i]` return
(inp, rot_gt, trans_gt, seq, frame1, frame2, endOfSeq). -/
structure Sample where
  rot_pred : List ℚ
  rot_gt : List ℚ
  trans_pred : List ℚ
  trans_gt : List ℚ
  seq : ℤ
  frame1 : ℤ
  frame2 : ℤ
  endOfSeq : Bool
deriving DecidableEq

/-- nn.MSELoss(reduction = sum): the sum of elementwise squared
differences. -/
def mseSum (p g : List ℚ) : ℚ :=
  (List.zipWith (fun a b => (a - b) * (a - b)) p g).sum

/-- Externally observable calls made by Trainer.train / Trainer.validate,
tagged with the loop index `i` of the sample being processed.  The
`backward` event records the values of the fields `self.loss_rot`,
`self.loss_trans` and `self.loss` at the moment `self.loss.backward()` is
invoked. -/
inductive TEvent where
  | setTrainMode
  | setEvalMode
  | forward (i : ℕ)
  | backward (i : ℕ) (rotSum transSum total : ℚ)
  | clipGrad (i : ℕ)
  | optStep (i : ℕ)
  | detach (i : ℕ)
  | zeroGrad (i : ℕ)
  | reset (i : ℕ)
  | writeTraj (i : ℕ)
deriving DecidableEq

/-- Persistent fields of the Trainer object set by Trainer.__init__. -/
structure Trainer where
  args : Args
  maxEpochs : ℤ
  curEpoch : ℤ
  loss_fn : List ℚ → List ℚ → ℚ
  loss_rot : ℚ
  loss_trans : ℚ
  loss : ℚ
  scaleFactor : ℚ
  weightRegularizer : Option ℚ
  iters : ℕ

/-- Trainer.__init__(args, epoch, model, train_set, val_set, loss_fn,
optimizer, ...).  The `loss_fn` argument is accepted and then ignored: the
source overwrites it with `nn.MSELoss(reduction = sum)`.  The `gradClip`
keyword parameter is likewise never stored (the loop reads
`self.args.gradClip`).  The scheduler is stored but unused here; the
model's gradient buffers are flushed (`model.zero_grad()`), an external
effect.  No configuration validation of any kind is performed, so
construction always succeeds. -/
def Trainer.make (args : Args) (epoch : ℤ) (loss_fn : List ℚ → List ℚ → ℚ)
    (scaleFactor : ℚ) (weightRegularizer : Option ℚ) : Trainer :=
  { args := args
    maxEpochs := args.nepochs
    curEpoch := epoch
    loss_fn := fun p g => mseSum p g
    loss_rot := 0
    loss_trans := 0
    loss := 0
    scaleFactor := scaleFactor
    weightRegularizer := weightRegularizer
    iters := 0 }

/-- Immutable data of one Trainer.train call: the arguments, the stored
loss function, scale factor and regularizer weight, the L2 norm sum of the
model parameters as a function of the loop index (the model is external),
and `numTrainIters`. -/
structure TCfg where
  args : Args
  fn : List ℚ → List ℚ → ℚ
  scale : ℚ
  wr : Option ℚ
  l2 : ℕ → ℚ
  n : ℕ

/-- Mutable data of one Trainer.train call: the three running loss fields
of the object, the local `elapsedBatches` counter, the six loss logs, and
the event trace. -/
structure LoopState where
  loss_rot : ℚ
  loss_trans : ℚ
  loss : ℚ
  elapsed : ℕ
  rotLosses : List ℚ
  transLosses : List ℚ
  totalLosses : List ℚ
  rotLoss_seq : List ℚ
  transLoss_seq : List ℚ
  totalLoss_seq : List ℚ
  trace : List TEvent

/-- Effective end-of-sequence flag: in debug mode the flag of the last
debug iteration (`i == numTrainIters - 1`) is forced to True. -/
def effEOS (a : Args) (n i : ℕ) (s : Sample) : Bool :=
  (a.debug && (i == n - 1)) || s.endOfSeq

/-- Window-close condition of the training loop:
`elapsedBatches >= self.args.trainBatch or endOfSeq is True`, evaluated
after `elapsedBatches += 1` (so with the counter at `e + 1`). -/
def closeFlag (a : Args) (n i e : ℕ) (s : Sample) : Bool :=
  decide (a.trainBatch ≤ ((e + 1 : ℕ) : ℤ)) || effEOS a n i s

/-- Optional L2 weight regularization: if a regularizer weight is
configured, `self.loss = sum([weightRegularizer * l2_reg, self.loss])`. -/
def regAdj (wr : Option ℚ) (l2v v : ℚ) : ℚ :=
  match wr with
  | some w => w * l2v + v
  | none => v

/-- One iteration of the Trainer.train loop body (Trainer.py lines
98-176): forward pass, loss accumulation, loss logging, effective
end-of-sequence handling, and, when the window closes, regularization,
backward pass, optional gradient clipping, optimizer step, LSTM-state
detach, loss-field reset, gradient flush, and LSTM-state reset at
end-of-sequence. -/
def trainStep (c : TCfg) (i : ℕ) (s : Sample) (ls : LoopState) : LoopState :=
  let rl := c.fn s.rot_pred s.rot_gt
  let tl := c.fn s.trans_pred s.trans_gt
  let lossRot := ls.loss_rot + c.scale * rl
  let lossTrans := ls.loss_trans + tl
  let lossAll := ls.loss + (c.scale * rl + tl)
  let curloss_rot := c.scale * rl
  let curloss_trans := tl
  let eos := effEOS c.args c.n i s
  let base : LoopState :=
    { ls with
      loss_rot := lossRot
      loss_trans := lossTrans
      loss := lossAll
      elapsed := ls.elapsed + 1
      rotLosses := ls.rotLosses ++ [curloss_rot]
      transLosses := ls.transLosses ++ [curloss_trans]
      totalLosses := ls.totalLosses ++ [curloss_rot + curloss_trans]
      rotLoss_seq := ls.rotLoss_seq ++ [curloss_rot]
      transLoss_seq := ls.transLoss_seq ++ [curloss_trans]
      totalLoss_seq := ls.totalLoss_seq ++ [curloss_rot + curloss_trans]
      trace := ls.trace ++ [TEvent.forward i] }
  if closeFlag c.args c.n i ls.elapsed s then
    { base with
      elapsed := 0
      rotLoss_seq := []
      transLoss_seq := []
      totalLoss_seq := []
      loss_rot := 0
      loss_trans := 0
      loss := 0
      trace := base.trace
        ++ [TEvent.backward i lossRot lossTrans (regAdj c.wr (c.l2 i) lossAll)]
        ++ (match c.args.gradClip with
            | some _ => [TEvent.clipGrad i]
            | none => [])
        ++ [TEvent.optStep i, TEvent.detach i, TEvent.zeroGrad i]
        ++ (if eos then [TEvent.reset i] else []) }
  else base

/-- The training loop `for i in trange(numTrainIters)`, processing the
listed samples starting at index `i`. -/
def trainLoop (c : TCfg) : ℕ → List Sample → LoopState → LoopState
  | _, [], ls => ls
  | i, s :: ss, ls => trainLoop c (i + 1) ss (trainStep c i s ls)

/-- The samples actually fetched by an epoch: in debug mode the loop runs
`args.debugIters` iterations (fetching `dataset[i]` beyond the end raises
IndexError, so at most `dataset.length` samples are processed); otherwise
a full pass. -/
def effSamples (a : Args) (dataset : List Sample) : List Sample :=
  if a.debug then dataset.take a.debugIters else dataset

/-- `numTrainIters` / `numValIters`: `args.debugIters` in debug mode, the
dataset length otherwise. -/
def numIters (a : Args) (dataset : List Sample) : ℕ :=
  if a.debug then a.debugIters else dataset.length

/-- The loop state at entry of Trainer.train: the object's loss fields
(NOT re-initialised by train), a fresh `elapsedBatches = 0`, fresh loss
logs, and the already-emitted `model.train()` mode switch. -/
def initTrainLS (t : Trainer) : LoopState :=
  { loss_rot := t.loss_rot
    loss_trans := t.loss_trans
    loss := t.loss
    elapsed := 0
    rotLosses := []
    transLosses := []
    totalLosses := []
    rotLoss_seq := []
    transLoss_seq := []
    totalLoss_seq := []
    trace := [TEvent.setTrainMode] }

/-- The TCfg of a Trainer.train call. -/
def Trainer.trainCfg (t : Trainer) (l2 : ℕ → ℚ) (tset : List Sample) : TCfg :=
  { args := t.args
    fn := t.loss_fn
    scale := t.scaleFactor
    wr := t.weightRegularizer
    l2 := l2
    n := numIters t.args tset }

/-- Result of a Trainer.train or Trainer.validate call: the object state
at return (or at the uncaught exception), the event trace, the returned
value (`none` both for the bare `return` of the epoch guard and when an
exception propagates), and the exception, if any. -/
structure TrainResult where
  state : Trainer
  trace : List TEvent
  ret : Option (List ℚ × List ℚ × List ℚ)
  err : Option RunError

/-- Trainer.train (Trainer.py lines 65-179).  The model is switched to
train mode; if `self.curEpoch >= self.maxEpochs` the method prints and
returns None immediately (bare `return`); otherwise `self.iters` is
incremented and the loop runs; at the end the loss logs are returned as a
triple.  In debug mode with `debugIters > len(train_set)`, fetching past
the end of the dataset raises IndexError after all available samples were
processed. -/
def Trainer.train (t : Trainer) (tset : List Sample) (l2 : ℕ → ℚ) : TrainResult :=
  if t.maxEpochs ≤ t.curEpoch then
    { state := t, trace := [TEvent.setTrainMode], ret := none, err := none }
  else
    let fin := trainLoop (t.trainCfg l2 tset) 0 (effSamples t.args tset) (initTrainLS t)
    { state := { t with
        loss_rot := fin.loss_rot
        loss_trans := fin.loss_trans
        loss := fin.loss
        iters := t.iters + 1 }
      trace := fin.trace
      ret := if t.args.debug = true ∧ tset.length < t.args.debugIters then none
             else some (fin.rotLosses, fin.transLosses, fin.totalLosses)
      err := if t.args.debug = true ∧ tset.length < t.args.debugIters then
               some RunError.indexError
             else none }

/-- Mutable data of one Trainer.validate call: the three running loss
fields, the six loss logs, the trajectory table under construction
(`traj_pred`, one row per sample), and the event trace. -/
structure VState where
  loss_rot : ℚ
  loss_trans : ℚ
  loss : ℚ
  rotLosses : List ℚ
  transLosses : List ℚ
  totalLosses : List ℚ
  rotLoss_seq : List ℚ
  transLoss_seq : List ℚ
  totalLoss_seq : List ℚ
  traj : List (List ℚ)
  trace : List TEvent

/-- One iteration of the Trainer.validate loop body (Trainer.py lines
205-263): forward pass, trajectory-row accumulation, loss accumulation and
logging; at end-of-sequence the trajectory is written to file and cleared,
the LSTM hidden state is detached (never reset), and the loss fields are
reset.  There is no window counter, no backward pass and no optimizer
step. -/
def valStep (fn : List ℚ → List ℚ → ℚ) (scale : ℚ) (i : ℕ) (s : Sample)
    (vs : VState) : VState :=
  let rl := fn s.rot_pred s.rot_gt
  let tl := fn s.trans_pred s.trans_gt
  let row := [(s.seq : ℚ), (s.frame1 : ℚ), (s.frame2 : ℚ)] ++ s.rot_pred ++ s.trans_pred
  let curloss_rot := scale * rl
  let curloss_trans := tl
  let base : VState :=
    { vs with
      loss_rot := vs.loss_rot + scale * rl
      loss_trans := vs.loss_trans + tl
      loss := vs.loss + (scale * rl + tl)
      traj := vs.traj ++ [row]
      rotLosses := vs.rotLosses ++ [curloss_rot]
      transLosses := vs.transLosses ++ [curloss_trans]
      totalLosses := vs.totalLosses ++ [curloss_rot + curloss_trans]
      rotLoss_seq := vs.rotLoss_seq ++ [curloss_rot]
      transLoss_seq := vs.transLoss_seq ++ [curloss_trans]
      totalLoss_seq := vs.totalLoss_seq ++ [curloss_rot + curloss_trans]
      trace := vs.trace ++ [TEvent.forward i] }
  if s.endOfSeq then
    { base with
      rotLoss_seq := []
      transLoss_seq := []
      totalLoss_seq := []
      traj := []
      loss_rot := 0
      loss_trans := 0
      loss := 0
      trace := base.trace ++ [TEvent.writeTraj i, TEvent.detach i] }
  else base

/-- The validation loop `for i in trange(numValIters)`. -/
def valLoop (fn : List ℚ → List ℚ → ℚ) (scale : ℚ) :
    ℕ → List Sample → VState → VState
  | _, [], vs => vs
  | i, s :: ss, vs => valLoop fn scale (i + 1) ss (valStep fn scale i s vs)

/-- The loop state at entry of Trainer.validate. -/
def initValVS (t : Trainer) : VState :=
  { loss_rot := t.loss_rot
    loss_trans := t.loss_trans
    loss := t.loss
    rotLosses := []
    transLosses := []
    totalLosses := []
    rotLoss_seq := []
    transLoss_seq := []
    totalLoss_seq := []
    traj := []
    trace := [TEvent.setEvalMode] }

/-- Trainer.validate (Trainer.py lines 183-266).  The model is switched to
eval mode; there is no epoch guard and `self.iters` is not touched; the
loop runs and the loss logs are returned as a triple.  Debug mode reads
`debugIters` items (IndexError past the end, as in train). -/
def Trainer.validate (t : Trainer) (vset : List Sample) : TrainResult :=
  let fin := valLoop t.loss_fn t.scaleFactor 0 (effSamples t.args vset) (initValVS t)
  { state := { t with
      loss_rot := fin.loss_rot
      loss_trans := fin.loss_trans
      loss := fin.loss }
    trace := fin.trace
    ret := if t.args.debug = true ∧ vset.length < t.args.debugIters then none
           else some (fin.rotLosses, fin.transLosses, fin.totalLosses)
    err := if t.args.debug = true ∧ vset.length < t.args.debugIters then
             some RunError.indexError
           else none }

/-! ## Trace observations -/

/-- Loop indices of the optimizer.step() calls in a trace. -/
def optStepIdx (tr : List TEvent) : List ℕ :=
  tr.filterMap fun ev =>
    match ev with
    | TEvent.optStep i => some i
    | _ => none

/-- Loop indices of the model.detach_LSTM_hidden() calls in a trace. -/
def detachIdx (tr : List TEvent) : List ℕ :=
  tr.filterMap fun ev =>
    match ev with
    | TEvent.detach i => some i
    | _ => none

/-- Loop indices of the model.reset_LSTM_hidden() calls in a trace. -/
def resetIdx (tr : List TEvent) : List ℕ :=
  tr.filterMap fun ev =>
    match ev with
    | TEvent.reset i => some i
    | _ => none

/-- The backward passes in a trace: loop index together with the values of
self.loss_rot, self.loss_trans and self.loss at the backward call. -/
def backEvents (tr : List TEvent) : List (ℕ × ℚ × ℚ × ℚ) :=
  tr.filterMap fun ev =>
    match ev with
    | TEvent.backward i r t v => some (i, r, t, v)
    | _ => none

/-! ## Specification-side descriptions of the training loop

These mirror the spec's wording: a window closes when the elapsed-window
counter reaches the configured size or the effective end-of-sequence flag
is set; per-window accumulated losses are the sums of the per-sample
losses plus any carried-in leftovers. -/

/-- Indices at which a window closes, starting at loop index `i` with the
elapsed-window counter at `e`. -/
def specCloseIdx (a : Args) (n : ℕ) : ℕ → ℕ → List Sample → List ℕ
  | _, _, [] => []
  | i, e, s :: ss =>
    if closeFlag a n i e s then i :: specCloseIdx a n (i + 1) 0 ss
    else specCloseIdx a n (i + 1) (e + 1) ss

/-- Indices of samples whose effective end-of-sequence flag is set (every
such sample closes a window). -/
def specResetIdx (a : Args) (n : ℕ) : ℕ → List Sample → List ℕ
  | _, [] => []
  | i, s :: ss =>
    (if effEOS a n i s then [i] else []) ++ specResetIdx a n (i + 1) ss

/-- Expected backward events and trailing accumulator values: `cr`, `ct`,
`cl` carry the running rotation, translation and combined sums (the
leftovers carried into the first window).  Each closing window emits
`(i, cr + scale·Σ rot, ct + Σ trans, reg-adjusted combined sum)` and
restarts the carries at zero; the second component is the value of the
three accumulators after the last sample. -/
def specBack (c : TCfg) : ℕ → ℕ → ℚ → ℚ → ℚ → List Sample →
    List (ℕ × ℚ × ℚ × ℚ) × (ℚ × ℚ × ℚ)
  | _, _, cr, ct, cl, [] => ([], (cr, ct, cl))
  | i, e, cr, ct, cl, s :: ss =>
    let rl := c.fn s.rot_pred s.rot_gt
    let tl := c.fn s.trans_pred s.trans_gt
    if closeFlag c.args c.n i e s then
      let rest := specBack c (i + 1) 0 0 0 0 ss
      ((i, cr + c.scale * rl, ct + tl,
          regAdj c.wr (c.l2 i) (cl + (c.scale * rl + tl))) :: rest.1, rest.2)
    else
      specBack c (i + 1) (e + 1) (cr + c.scale * rl) (ct + tl)
        (cl + (c.scale * rl + tl)) ss

/-- Per-sample rotation losses as recorded in the returned `rotLosses`
log: `scaleFactor * loss_fn(rot_pred, rot_gt)` for each sample. -/
def specRotLosses (fn : List ℚ → List ℚ → ℚ) (scale : ℚ) (ss : List Sample) : List ℚ :=
  ss.map fun s => scale * fn s.rot_pred s.rot_gt

/-- Per-sample translation losses as recorded in `transLosses`. -/
def specTransLosses (fn : List ℚ → List ℚ → ℚ) (ss : List Sample) : List ℚ :=
  ss.map fun s => fn s.trans_pred s.trans_gt

/-- Per-sample total losses as recorded in `totalLosses`. -/
def specTotalLosses (fn : List ℚ → List ℚ → ℚ) (scale : ℚ) (ss : List Sample) : List ℚ :=
  ss.map fun s => scale * fn s.rot_pred s.rot_gt + fn s.trans_pred s.trans_gt

/-- Indices of samples whose raw end-of-sequence flag is set (validation
performs no debug forcing). -/
def specEosIdx : ℕ → List Sample → List ℕ
  | _, [] => []
  | i, s :: ss => (if s.endOfSeq then [i] else []) ++ specEosIdx (i + 1) ss

/-- Summed per-sample losses of a sample list: `(Σ scale·rot, Σ trans,
Σ (scale·rot + trans))`. -/
def specLeftover (fn : List ℚ → List ℚ → ℚ) (scale : ℚ) : List Sample → ℚ × ℚ × ℚ
  | [] => (0, 0, 0)
  | s :: ss =>
    let rl := fn s.rot_pred s.rot_gt
    let tl := fn s.trans_pred s.trans_gt
    let rest := specLeftover fn scale ss
    (scale * rl + rest.1, tl + rest.2.1, (scale * rl + tl) + rest.2.2)

/-- Window-close indices of a Trainer.train call (empty when the epoch
guard fires). -/
def Trainer.windowCloseIdx (t : Trainer) (tset : List Sample) : List ℕ :=
  if t.maxEpochs ≤ t.curEpoch then []
  else specCloseIdx t.args (numIters t.args tset) 0 0 (effSamples t.args tset)

/-- Effective end-of-sequence indices of a Trainer.train call (empty when
the epoch guard fires). -/
def Trainer.windowResetIdx (t : Trainer) (tset : List Sample) : List ℕ :=
  if t.maxEpochs ≤ t.curEpoch then []
  else specResetIdx t.args (numIters t.args tset) 0 (effSamples t.args tset)

/-! ## Helper lemmas -/

lemma trainLoop_cons (c : TCfg) (i : ℕ) (s : Sample) (ss : List Sample) (ls : LoopState) :
    trainLoop c i (s :: ss) ls = trainLoop c (i + 1) ss (trainStep c i s ls) := rfl

lemma trainStep_elapsed (c : TCfg) (i : ℕ) (s : Sample) (ls : LoopState) :
    (trainStep c i s ls).elapsed =
      if closeFlag c.args c.n i ls.elapsed s then 0 else ls.elapsed + 1 := by
  cases h : closeFlag c.args c.n i ls.elapsed s <;> simp [trainStep, h]

lemma trainStep_optStepIdx (c : TCfg) (i : ℕ) (s : Sample) (ls : LoopState) :
    optStepIdx (trainStep c i s ls).trace =
      optStepIdx ls.trace ++ (if closeFlag c.args c.n i ls.elapsed s then [i] else []) := by
  cases h : closeFlag c.args c.n i ls.elapsed s <;>
    cases hg : c.args.gradClip <;>
      cases he : effEOS c.args c.n i s <;>
        simp [trainStep, h, hg, he, optStepIdx]

lemma trainStep_detachIdx (c : TCfg) (i : ℕ) (s : Sample) (ls : LoopState) :
    detachIdx (trainStep c i s ls).trace =
      detachIdx ls.trace ++ (if closeFlag c.args c.n i ls.elapsed s then [i] else []) := by
  cases h : closeFlag c.args c.n i ls.elapsed s <;>
    cases hg : c.args.gradClip <;>
      cases he : effEOS c.args c.n i s <;>
        simp [trainStep, h, hg, he, detachIdx]

lemma trainStep_resetIdx (c : TCfg) (i : ℕ) (s : Sample) (ls : LoopState) :
    resetIdx (trainStep c i s ls).trace =
      resetIdx ls.trace ++ (if effEOS c.args c.n i s then [i] else []) := by
  have hec : effEOS c.args c.n i s = true → closeFlag c.args c.n i ls.elapsed s = true := by
    intro he; simp [closeFlag, he]
  cases h : closeFlag c.args c.n i ls.elapsed s <;>
    cases hg : c.args.gradClip <;>
      cases he : effEOS c.args c.n i s <;>
        simp_all [trainStep, resetIdx]

lemma optStepIdx_trainLoop (c : TCfg) :
    ∀ (ss : List Sample) (i : ℕ) (ls : LoopState),
      optStepIdx (trainLoop c i ss ls).trace =
        optStepIdx ls.trace ++ specCloseIdx c.args c.n i ls.elapsed ss := by
  intro ss
  induction ss with
  | nil => intro i ls; simp [trainLoop, specCloseIdx]
  | cons s ss ih =>
    intro i ls
    rw [trainLoop_cons, ih, trainStep_optStepIdx, trainStep_elapsed]
    cases h : closeFlag c.args c.n i ls.elapsed s <;> simp [specCloseIdx, h]

lemma detachIdx_trainLoop (c : TCfg) :
    ∀ (ss : List Sample) (i : ℕ) (ls : LoopState),
      detachIdx (trainLoop c i ss ls).trace =
        detachIdx ls.trace ++ specCloseIdx c.args c.n i ls.elapsed ss := by
  intro ss
  induction ss with
  | nil => intro i ls; simp [trainLoop, specCloseIdx]
  | cons s ss ih =>
    intro i ls
    rw [trainLoop_cons, ih, trainStep_detachIdx, trainStep_elapsed]
    cases h : closeFlag c.args c.n i ls.elapsed s <;> simp [specCloseIdx, h]

lemma resetIdx_trainLoop (c : TCfg) :
    ∀ (ss : List Sample) (i : ℕ) (ls : LoopState),
      resetIdx (trainLoop c i ss ls).trace =
        resetIdx ls.trace ++ specResetIdx c.args c.n i ss := by
  intro ss
  induction ss with
  | nil => intro i ls; simp [trainLoop, specResetIdx]
  | cons s ss ih =>
    intro i ls
    rw [trainLoop_cons, ih, trainStep_resetIdx]
    cases he : effEOS c.args c.n i s <;> simp [specResetIdx, he]

lemma specResetIdx_sublist_specCloseIdx (a : Args) (n : ℕ) :
    ∀ (ss : List Sample) (i e : ℕ),
      List.Sublist (specResetIdx a n i ss) (specCloseIdx a n i e ss) := by
  intro ss
  induction ss with
  | nil => intro i e; simp [specResetIdx, specCloseIdx]
  | cons s ss ih =>
    intro i e
    by_cases hc : closeFlag a n i e s = true
    · rw [specCloseIdx, if_pos hc, specResetIdx]
      cases he : effEOS a n i s
      · simpa using List.Sublist.cons i (ih (i + 1) 0)
      · simpa using List.Sublist.cons₂ i (ih (i + 1) 0)
    · have he : effEOS a n i s = false := by
        rcases Bool.eq_false_or_eq_true (effEOS a n i s) with h | h
        · have : closeFlag a n i e s = true := by simp [closeFlag, h]
          exact absurd this hc
        · exact h
      rw [specCloseIdx, if_neg hc, specResetIdx, he]
      simpa using ih (i + 1) (e + 1)

lemma back_trainLoop (c : TCfg) :
    ∀ (ss : List Sample) (i : ℕ) (ls : LoopState),
      backEvents (trainLoop c i ss ls).trace =
        backEvents ls.trace ++
          (specBack c i ls.elapsed ls.loss_rot ls.loss_trans ls.loss ss).1 ∧
      (trainLoop c i ss ls).loss_rot =
        (specBack c i ls.elapsed ls.loss_rot ls.loss_trans ls.loss ss).2.1 ∧
      (trainLoop c i ss ls).loss_trans =
        (specBack c i ls.elapsed ls.loss_rot ls.loss_trans ls.loss ss).2.2.1 ∧
      (trainLoop c i ss ls).loss =
        (specBack c i ls.elapsed ls.loss_rot ls.loss_trans ls.loss ss).2.2.2 := by
  intro ss
  induction ss with
  | nil => intro i ls; simp [trainLoop, specBack]
  | cons s ss ih =>
    intro i ls
    rw [trainLoop_cons]
    obtain ⟨ih1, ih2, ih3, ih4⟩ := ih (i + 1) (trainStep c i s ls)
    rw [ih1, ih2, ih3, ih4]
    cases h : closeFlag c.args c.n i ls.elapsed s <;>
      cases hg : c.args.gradClip <;>
        cases he : effEOS c.args c.n i s <;>
          simp [trainStep, h, hg, he, specBack, backEvents, regAdj]

lemma logs_trainLoop (c : TCfg) :
    ∀ (ss : List Sample) (i : ℕ) (ls : LoopState),
      (trainLoop c i ss ls).rotLosses = ls.rotLosses ++ specRotLosses c.fn c.scale ss ∧
      (trainLoop c i ss ls).transLosses = ls.transLosses ++ specTransLosses c.fn ss ∧
      (trainLoop c i ss ls).totalLosses = ls.totalLosses ++ specTotalLosses c.fn c.scale ss := by
  intro ss
  induction ss with
  | nil => intro i ls; simp [trainLoop, specRotLosses, specTransLosses, specTotalLosses]
  | cons s ss ih =>
    intro i ls
    rw [trainLoop_cons]
    obtain ⟨ih1, ih2, ih3⟩ := ih (i + 1) (trainStep c i s ls)
    rw [ih1, ih2, ih3]
    cases h : closeFlag c.args c.n i ls.elapsed s <;>
      simp [trainStep, h, specRotLosses, specTransLosses, specTotalLosses]

lemma valLoop_cons (fn : List ℚ → List ℚ → ℚ) (scale : ℚ) (i : ℕ) (s : Sample)
    (ss : List Sample) (vs : VState) :
    valLoop fn scale i (s :: ss) vs = valLoop fn scale (i + 1) ss (valStep fn scale i s vs) :=
  rfl

lemma valLoop_trace (fn : List ℚ → List ℚ → ℚ) (scale : ℚ) :
    ∀ (ss : List Sample) (i : ℕ) (vs : VState),
      optStepIdx (valLoop fn scale i ss vs).trace = optStepIdx vs.trace ∧
      backEvents (valLoop fn scale i ss vs).trace = backEvents vs.trace ∧
      resetIdx (valLoop fn scale i ss vs).trace = resetIdx vs.trace ∧
      detachIdx (valLoop fn scale i ss vs).trace = detachIdx vs.trace ++ specEosIdx i ss := by
  intro ss
  induction ss with
  | nil => intro i vs; simp [valLoop, specEosIdx]
  | cons s ss ih =>
    intro i vs
    rw [valLoop_cons]
    obtain ⟨ih1, ih2, ih3, ih4⟩ := ih (i + 1) (valStep fn scale i s vs)
    rw [ih1, ih2, ih3, ih4]
    cases h : s.endOfSeq <;>
      simp [valStep, h, specEosIdx, optStepIdx, backEvents, resetIdx, detachIdx]

lemma valLoop_losses_noEos (fn : List ℚ → List ℚ → ℚ) (scale : ℚ) :
    ∀ (ss : List Sample) (i : ℕ) (vs : VState), (∀ s ∈ ss, s.endOfSeq = false) →
      (valLoop fn scale i ss vs).loss_rot = vs.loss_rot + (specLeftover fn scale ss).1 ∧
      (valLoop fn scale i ss vs).loss_trans = vs.loss_trans + (specLeftover fn scale ss).2.1 ∧
      (valLoop fn scale i ss vs).loss = vs.loss + (specLeftover fn scale ss).2.2 := by
  intro ss
  induction ss with
  | nil => intro i vs _; simp [valLoop, specLeftover]
  | cons s ss ih =>
    intro i vs hno
    have hs : s.endOfSeq = false := hno s (List.mem_cons_self s ss)
    rw [valLoop_cons]
    obtain ⟨ih1, ih2, ih3⟩ := ih (i + 1) (valStep fn scale i s vs)
      (fun x hx => hno x (List.mem_cons_of_mem s hx))
    rw [ih1, ih2, ih3]
    simp [valStep, hs, specLeftover]
    refine ⟨by ring, by ring, by ring⟩

lemma train_guard (t : Trainer) (tset : List Sample) (l2 : ℕ → ℚ)
    (h : t.maxEpochs ≤ t.curEpoch) :
    t.train tset l2 =
      { state := t, trace := [TEvent.setTrainMode], ret := none, err := none } := by
  simp [Trainer.train, h]

lemma train_run_trace (t : Trainer) (tset : List Sample) (l2 : ℕ → ℚ)
    (h : ¬ t.maxEpochs ≤ t.curEpoch) :
    (t.train tset l2).trace =
      (trainLoop (t.trainCfg l2 tset) 0 (effSamples t.args tset) (initTrainLS t)).trace := by
  simp [Trainer.train, h]

lemma train_run_losses (t : Trainer) (tset : List Sample) (l2 : ℕ → ℚ)
    (h : ¬ t.maxEpochs ≤ t.curEpoch) :
    (t.train tset l2).state.loss_rot =
      (trainLoop (t.trainCfg l2 tset) 0 (effSamples t.args tset) (initTrainLS t)).loss_rot ∧
    (t.train tset l2).state.loss_trans =
      (trainLoop (t.trainCfg l2 tset) 0 (effSamples t.args tset) (initTrainLS t)).loss_trans ∧
    (t.train tset l2).state.loss =
      (trainLoop (t.trainCfg l2 tset) 0 (effSamples t.args tset) (initTrainLS t)).loss := by
  refine ⟨?_, ?_, ?_⟩ <;> simp [Trainer.train, h]

lemma train_run_ret (t : Trainer) (tset : List Sample) (l2 : ℕ → ℚ)
    (h : ¬ t.maxEpochs ≤ t.curEpoch)
    (hidx : ¬ (t.args.debug = true ∧ tset.length < t.args.debugIters)) :
    (t.train tset l2).ret =
      some ((trainLoop (t.trainCfg l2 tset) 0 (effSamples t.args tset) (initTrainLS t)).rotLosses,
        (trainLoop (t.trainCfg l2 tset) 0 (effSamples t.args tset) (initTrainLS t)).transLosses,
        (trainLoop (t.trainCfg l2 tset) 0 (effSamples t.args tset) (initTrainLS t)).totalLosses) := by
  simp [Trainer.train, h, hidx]

lemma validate_trace (t : Trainer) (vset : List Sample) :
    (t.validate vset).trace =
      (valLoop t.loss_fn t.scaleFactor 0 (effSamples t.args vset) (initValVS t)).trace := by
  simp [Trainer.validate]

lemma validate_state_losses (t : Trainer) (vset : List Sample) :
    (t.validate vset).state.loss_rot =
      (valLoop t.loss_fn t.scaleFactor 0 (effSamples t.args vset) (initValVS t)).loss_rot ∧
    (t.validate vset).state.loss_trans =
      (valLoop t.loss_fn t.scaleFactor 0 (effSamples t.args vset) (initValVS t)).loss_trans ∧
    (t.validate vset).state.loss =
      (valLoop t.loss_fn t.scaleFactor 0 (effSamples t.args vset) (initValVS t)).loss := by
  refine ⟨?_, ?_, ?_⟩ <;> simp [Trainer.validate]

/-! ## Concrete scenario data -/

/-- Arguments of the spec's training scenario: 10 epochs, no debug mode,
window size (trainBatch) 3, no gradient clipping. -/
def args335 : Args :=
  { nepochs := 10, debug := false, debugIters := 0, trainBatch := 3, gradClip := none }

/-- A sample that is not an end of sequence, with unit per-term losses:
rot_pred = [1] vs rot_gt = [0] and trans_pred = [1] vs trans_gt = [0], so
mseSum gives 1 for each of the two loss terms. -/
def sampF : Sample :=
  { rot_pred := [1], rot_gt := [0], trans_pred := [1], trans_gt := [0]
    seq := 0, frame1 := 0, frame2 := 0, endOfSeq := false }

/-- The same sample with the end-of-sequence flag set. -/
def sampT : Sample :=
  { rot_pred := [1], rot_gt := [0], trans_pred := [1], trans_gt := [0]
    seq := 0, frame1 := 0, frame2 := 0, endOfSeq := true }

/-- Five samples with endOfSeq = [F, F, F, F, T]. -/
def scen5 : List Sample := [sampF, sampF, sampF, sampF, sampT]

/-- Trainer(args335, epoch 0, mseSum as the (ignored) loss_fn argument,
scaleFactor 1, no weight regularizer). -/
def trainer335 : Trainer := Trainer.make args335 0 mseSum 1 none

/-- A model whose parameter L2 norms are zero (irrelevant: no regularizer
is configured in the scenarios). -/
def l2zero : ℕ → ℚ := fun _ => 0

/-! ## Claims C3, C5, C6 (training and validation control flow) -/

/-- C3: in every training epoch, the optimizer.step() calls are exactly
the window closes — a window closes exactly when the elapsed-window-sample
counter reaches the configured window size or the effective
end-of-sequence flag is true (`Trainer.windowCloseIdx`); in particular,
with window size 3 and five samples flagged [F, F, F, F, T], exactly two
optimizer steps occur, at loop indices 2 and 4 (after the third and the
fifth sample). -/
theorem train_optimizer_steps_eq_window_closes :
    (∀ (t : Trainer) (tset : List Sample) (l2 : ℕ → ℚ),
      optStepIdx (t.train tset l2).trace = t.windowCloseIdx tset) ∧
    optStepIdx (trainer335.train scen5 l2zero).trace = [2, 4] := by
  constructor
  · intro t tset l2
    by_cases h : t.maxEpochs ≤ t.curEpoch
    · rw [train_guard t tset l2 h]
      simp [Trainer.windowCloseIdx, h, optStepIdx]
    · rw [train_run_trace t tset l2 h, optStepIdx_trainLoop,
        Trainer.windowCloseIdx, if_neg h]
      simp [initTrainLS, optStepIdx, Trainer.trainCfg]
  · norm_num [Trainer.train, trainer335, Trainer.make, args335, scen5, sampF, sampT,
      effSamples, numIters, initTrainLS, Trainer.trainCfg, trainLoop, trainStep,
      closeFlag, effEOS, optStepIdx, l2zero, mseSum, regAdj]
    decide

/-- C5: in training mode, LSTM-hidden-state reset is signaled exactly at
the samples whose effective end-of-sequence flag is true (in debug mode
the last debug iteration's flag is forced to true), and every one of
those samples closes a window (`Trainer.windowResetIdx` is a sublist of
`Trainer.windowCloseIdx`); detach is signaled exactly at the window
closes, so a window that closes solely by the size threshold signals
detach but never reset. -/
theorem train_reset_iff_eos_close :
    ∀ (t : Trainer) (tset : List Sample) (l2 : ℕ → ℚ),
      detachIdx (t.train tset l2).trace = t.windowCloseIdx tset ∧
      resetIdx (t.train tset l2).trace = t.windowResetIdx tset ∧
      List.Sublist (t.windowResetIdx tset) (t.windowCloseIdx tset) := by
  intro t tset l2
  by_cases h : t.maxEpochs ≤ t.curEpoch
  · rw [train_guard t tset l2 h]
    simp [Trainer.windowCloseIdx, Trainer.windowResetIdx, h, detachIdx, resetIdx]
  · refine ⟨?_, ?_, ?_⟩
    · rw [train_run_trace t tset l2 h, detachIdx_trainLoop,
        Trainer.windowCloseIdx, if_neg h]
      simp [initTrainLS, detachIdx, Trainer.trainCfg]
    · rw [train_run_trace t tset l2 h, resetIdx_trainLoop,
        Trainer.windowResetIdx, if_neg h]
      simp [initTrainLS, resetIdx, Trainer.trainCfg]
    · rw [Trainer.windowCloseIdx, if_neg h, Trainer.windowResetIdx, if_neg h]
      exact specResetIdx_sublist_specCloseIdx t.args (numIters t.args tset)
        (effSamples t.args tset) 0 0

/-- C6: a validation epoch performs no optimizer step and no backward
pass (so no weight update), never signals LSTM-state reset, and signals
LSTM-state detach exactly at the end-of-sequence samples. -/
theorem validate_no_optimizer_step :
    ∀ (t : Trainer) (vset : List Sample),
      optStepIdx (t.validate vset).trace = [] ∧
      backEvents (t.validate vset).trace = [] ∧
      resetIdx (t.validate vset).trace = [] ∧
      detachIdx (t.validate vset).trace = specEosIdx 0 (effSamples t.args vset) := by
  intro t vset
  obtain ⟨h1, h2, h3, h4⟩ := valLoop_trace t.loss_fn t.scaleFactor
    (effSamples t.args vset) 0 (initValVS t)
  rw [validate_trace, h1, h2, h3, h4]
  simp [initValVS, optStepIdx, backEvents, resetIdx, detachIdx]

/-! ## Claim C4 (window loss accumulation) -/

/-- C4 counterexample: the three loss accumulators are long-lived instance
fields that train() does not re-initialise, so a window's backpropagated
sums need not equal the sums over the window's own samples.  Concretely:
a fresh trainer validates one non-end-of-sequence sample (leaving
loss_rot = 1, loss_trans = 1, loss = 2 in the fields), then trains on one
end-of-sequence sample whose scaled rotation loss is 1; the single
backward pass of that window records loss_rot = 2 and loss_trans = 2,
not scaleFactor × (window rot sum) = 1 and (window trans sum) = 1. -/
theorem train_window_loss_counterexample :
    backEvents (((trainer335.validate [sampF]).state.train [sampT] l2zero)).trace
      = [(0, 2, 2, 4)] ∧
    trainer335.scaleFactor * mseSum sampT.rot_pred sampT.rot_gt = 1 ∧
    mseSum sampT.trans_pred sampT.trans_gt = 1 ∧
    (2 : ℚ) ≠ 1 := by
  refine ⟨?_, ?_, ?_, by norm_num⟩
  · norm_num [Trainer.validate, Trainer.train, trainer335, Trainer.make, args335,
      sampF, sampT, effSamples, numIters, initValVS, valLoop, valStep, initTrainLS,
      Trainer.trainCfg, trainLoop, trainStep, closeFlag, effEOS, l2zero, mseSum, regAdj]
    simp [backEvents]
  · norm_num [trainer335, Trainer.make, sampT, mseSum]
  · norm_num [sampT, mseSum]

/-- C4 (amended): in a training epoch that starts with the three loss
accumulators at zero (as after construction or after any window close —
but not after an epoch that returned mid-window, see
`loss_accumulators_carry_over`), the backward events are exactly the
per-window sums described by `specBack` with zero carries: the recorded
rotation sum is scaleFactor × the sum of the window's per-sample rotation
losses, the translation sum is the un-scaled sum of the window's
translation losses, and the combined backpropagated value additionally
carries the optional L2 regularization term; the recursion restarts every
carry at zero after each window close, and the fields at return hold the
(zero-started) sums of the trailing samples that closed no window. -/
theorem train_window_losses (t : Trainer) (tset : List Sample) (l2 : ℕ → ℚ)
    (h : ¬ t.maxEpochs ≤ t.curEpoch)
    (hr : t.loss_rot = 0) (ht : t.loss_trans = 0) (hl : t.loss = 0) :
    backEvents (t.train tset l2).trace =
      (specBack (t.trainCfg l2 tset) 0 0 0 0 0 (effSamples t.args tset)).1 ∧
    (t.train tset l2).state.loss_rot =
      (specBack (t.trainCfg l2 tset) 0 0 0 0 0 (effSamples t.args tset)).2.1 ∧
    (t.train tset l2).state.loss_trans =
      (specBack (t.trainCfg l2 tset) 0 0 0 0 0 (effSamples t.args tset)).2.2.1 ∧
    (t.train tset l2).state.loss =
      (specBack (t.trainCfg l2 tset) 0 0 0 0 0 (effSamples t.args tset)).2.2.2 := by
  obtain ⟨b1, b2, b3, b4⟩ :=
    back_trainLoop (t.trainCfg l2 tset) (effSamples t.args tset) 0 (initTrainLS t)
  obtain ⟨s1, s2, s3⟩ := train_run_losses t tset l2 h
  refine ⟨?_, ?_, ?_, ?_⟩
  · rw [train_run_trace t tset l2 h, b1]
    simp [initTrainLS, backEvents, hr, ht, hl]
  · rw [s1, b2]
    simp [initTrainLS, hr, ht, hl]
  · rw [s2, b3]
    simp [initTrainLS, hr, ht, hl]
  · rw [s3, b4]
    simp [initTrainLS, hr, ht, hl]

/-- C4 witness: `train_window_losses` applied to the fresh trainer335 on
the five-sample scenario; the two windows record (rot, trans, total) sums
(3, 3, 6) and (2, 2, 4), and the trailing accumulators are zero because
the last sample closed a window. -/
theorem train_window_losses_witness :
    (¬ trainer335.maxEpochs ≤ trainer335.curEpoch) ∧ trainer335.loss_rot = 0 ∧
    backEvents (trainer335.train scen5 l2zero).trace =
      (specBack (trainer335.trainCfg l2zero scen5) 0 0 0 0 0
        (effSamples trainer335.args scen5)).1 ∧
    (specBack (trainer335.trainCfg l2zero scen5) 0 0 0 0 0
        (effSamples trainer335.args scen5)).1 = [(2, 3, 3, 6), (4, 2, 2, 4)] ∧
    (trainer335.train scen5 l2zero).state.loss_rot =
      (specBack (trainer335.trainCfg l2zero scen5) 0 0 0 0 0
        (effSamples trainer335.args scen5)).2.1 ∧
    (specBack (trainer335.trainCfg l2zero scen5) 0 0 0 0 0
        (effSamples trainer335.args scen5)).2.1 = 0 := by
  refine ⟨by decide, rfl, ?_, ?_, ?_, ?_⟩
  · exact (train_window_losses trainer335 scen5 l2zero (by decide) rfl rfl rfl).1
  · norm_num [trainer335, Trainer.make, args335, scen5, sampF, sampT, effSamples,
      numIters, Trainer.trainCfg, specBack, closeFlag, effEOS, l2zero, mseSum, regAdj]
  · exact (train_window_losses trainer335 scen5 l2zero (by decide) rfl rfl rfl).2.1
  · norm_num [trainer335, Trainer.make, args335, scen5, sampF, sampT, effSamples,
      numIters, Trainer.trainCfg, specBack, closeFlag, effEOS, l2zero, mseSum, regAdj]

/-! ## Claim C7 (train return contract and epoch guard) -/

/-- trainer335 with the current epoch already at maxEpochs = 10. -/
def trainer335e10 : Trainer := Trainer.make args335 10 mseSum 1 none

/-- C7 counterexample: when the current epoch (10) has reached the
configured maximum (nepochs = 10), train() executes the guard's bare
`return`, so it returns None rather than the claimed triple of per-sample
loss lists. -/
theorem train_return_counterexample :
    trainer335e10.maxEpochs ≤ trainer335e10.curEpoch ∧
    (trainer335e10.train scen5 l2zero).ret = none := by
  constructor
  · decide
  · rw [train_guard trainer335e10 scen5 l2zero (by decide)]

/-- C7 (amended): when the epoch guard does not fire (and no debug-mode
IndexError occurs), train() returns the triple of per-sample loss lists
(rotLosses, transLosses, totalLosses); when the current epoch has reached
or exceeded the maximum, train() returns None immediately — the object
state is fully unchanged and the trace holds only the model.train() mode
switch, so no forward pass, no optimizer step and no accumulator mutation
happen on the guard path. -/
theorem train_return_contract (t : Trainer) (tset : List Sample) (l2 : ℕ → ℚ) :
    (t.maxEpochs ≤ t.curEpoch →
      t.train tset l2 =
        { state := t, trace := [TEvent.setTrainMode], ret := none, err := none }) ∧
    (¬ t.maxEpochs ≤ t.curEpoch →
      ¬ (t.args.debug = true ∧ tset.length < t.args.debugIters) →
      (t.train tset l2).ret =
        some (specRotLosses t.loss_fn t.scaleFactor (effSamples t.args tset),
          specTransLosses t.loss_fn (effSamples t.args tset),
          specTotalLosses t.loss_fn t.scaleFactor (effSamples t.args tset))) := by
  constructor
  · intro h
    exact train_guard t tset l2 h
  · intro h hidx
    rw [train_run_ret t tset l2 h hidx]
    obtain ⟨g1, g2, g3⟩ :=
      logs_trainLoop (t.trainCfg l2 tset) (effSamples t.args tset) 0 (initTrainLS t)
    rw [g1, g2, g3]
    simp [initTrainLS, Trainer.trainCfg]

/-- C7 witness: the guard branch at trainer335e10 (epoch 10 of 10) and the
normal branch at trainer335 (epoch 0 of 10) on the five-sample scenario,
whose per-sample losses are all (1, 1, 2). -/
theorem train_return_contract_witness :
    trainer335e10.maxEpochs ≤ trainer335e10.curEpoch ∧
    trainer335e10.train scen5 l2zero =
      { state := trainer335e10, trace := [TEvent.setTrainMode], ret := none, err := none } ∧
    (trainer335.train scen5 l2zero).ret =
      some (specRotLosses trainer335.loss_fn trainer335.scaleFactor
          (effSamples trainer335.args scen5),
        specTransLosses trainer335.loss_fn (effSamples trainer335.args scen5),
        specTotalLosses trainer335.loss_fn trainer335.scaleFactor
          (effSamples trainer335.args scen5)) ∧
    specRotLosses trainer335.loss_fn trainer335.scaleFactor (effSamples trainer335.args scen5)
      = [1, 1, 1, 1, 1] ∧
    specTotalLosses trainer335.loss_fn trainer335.scaleFactor (effSamples trainer335.args scen5)
      = [2, 2, 2, 2, 2] := by
  refine ⟨by decide, ?_, ?_, ?_, ?_⟩
  · exact (train_return_contract trainer335e10 scen5 l2zero).1 (by decide)
  · exact (train_return_contract trainer335 scen5 l2zero).2 (by decide) (by decide)
  · norm_num [trainer335, Trainer.make, args335, scen5, sampF, sampT, effSamples,
      specRotLosses, mseSum]
  · norm_num [trainer335, Trainer.make, args335, scen5, sampF, sampT, effSamples,
      specTotalLosses, mseSum]

/-! ## Claim C8 (construction-time validation) -/

/-- The list [i, i+1, ..., i+k-1]. -/
def idxFrom : ℕ → ℕ → List ℕ
  | _, 0 => []
  | i, k + 1 => i :: idxFrom (i + 1) k

lemma specCloseIdx_nonpos (a : Args) (n : ℕ) (hb : a.trainBatch ≤ 0) :
    ∀ (ss : List Sample) (i e : ℕ), specCloseIdx a n i e ss = idxFrom i ss.length := by
  intro ss
  induction ss with
  | nil => intro i e; simp [specCloseIdx, idxFrom]
  | cons s ss ih =>
    intro i e
    have hc : closeFlag a n i e s = true := by
      simp only [closeFlag, Bool.or_eq_true, decide_eq_true_eq]
      left
      omega
    rw [specCloseIdx, if_pos hc, ih (i + 1) 0]
    simp [idxFrom]

/-- Arguments with a window size (trainBatch) of zero. -/
def argsB0 : Args :=
  { nepochs := 10, debug := false, debugIters := 0, trainBatch := 0, gradClip := none }

/-- Trainer constructed from the zero-window-size arguments. -/
def trainerB0 : Trainer := Trainer.make argsB0 0 mseSum 1 none

/-- C8 counterexample: Trainer.__init__ performs no validation whatsoever
— there is no ConfigurationError (nor any other check) anywhere in the
source — so constructing with window size trainBatch = 0 succeeds,
yielding an ordinary fully-populated object, and train() even runs on it
without error (every sample immediately closes a window). -/
theorem trainer_no_construction_validation_counterexample :
    trainerB0.args.trainBatch ≤ 0 ∧
    trainerB0 =
      { args := argsB0
        maxEpochs := 10
        curEpoch := 0
        loss_fn := fun p g => mseSum p g
        loss_rot := 0
        loss_trans := 0
        loss := 0
        scaleFactor := 1
        weightRegularizer := none
        iters := 0 } ∧
    (trainerB0.train [sampF] l2zero).err = none ∧
    (trainerB0.train [sampF] l2zero).ret = some ([1], [1], [2]) ∧
    optStepIdx (trainerB0.train [sampF] l2zero).trace = [0] := by
  refine ⟨by decide, rfl, by decide, ?_, ?_⟩
  · norm_num [Trainer.train, trainerB0, Trainer.make, argsB0, sampF, effSamples,
      numIters, initTrainLS, Trainer.trainCfg, trainLoop, trainStep, closeFlag,
      effEOS, l2zero, mseSum, regAdj]
  · norm_num [Trainer.train, trainerB0, Trainer.make, argsB0, sampF, effSamples,
      numIters, initTrainLS, Trainer.trainCfg, trainLoop, trainStep, closeFlag,
      effEOS, l2zero, mseSum, regAdj]
    simp [optStepIdx]

/-- C8 (amended): construction performs no configuration validation and
always succeeds; a window size ≤ 0 is accepted, and during a training
epoch it makes every processed sample close its own window (one
optimizer step per sample) instead of raising any error. -/
theorem train_nonpositive_window (t : Trainer) (tset : List Sample) (l2 : ℕ → ℚ)
    (hb : t.args.trainBatch ≤ 0) (h : ¬ t.maxEpochs ≤ t.curEpoch) :
    optStepIdx (t.train tset l2).trace = idxFrom 0 (effSamples t.args tset).length := by
  rw [train_run_trace t tset l2 h, optStepIdx_trainLoop]
  simp only [Trainer.trainCfg, initTrainLS]
  rw [specCloseIdx_nonpos t.args (numIters t.args tset) hb (effSamples t.args tset) 0 0]
  simp [optStepIdx]

/-- C8 witness: `train_nonpositive_window` at trainerB0 on a two-sample
dataset: both samples close windows, optimizer steps at indices 0 and 1. -/
theorem train_nonpositive_window_witness :
    trainerB0.args.trainBatch ≤ 0 ∧
    optStepIdx (trainerB0.train [sampF, sampF] l2zero).trace =
      idxFrom 0 (effSamples trainerB0.args [sampF, sampF]).length ∧
    idxFrom 0 (effSamples trainerB0.args [sampF, sampF]).length = [0, 1] := by
  refine ⟨by decide, ?_, by decide⟩
  exact train_nonpositive_window trainerB0 [sampF, sampF] l2zero (by decide) (by decide)

/-! ## Claim C9 (accumulator carry-over across calls) -/

/-- C9: the loss accumulators are long-lived instance fields.  A
validate() call over samples none of which is an end of sequence flushes
nothing: it returns with the accumulators holding their previous values
plus the samples' summed losses.  A subsequent train() call (epoch guard
off) seeds its very first window with whatever the fields hold — its
backward events are `specBack` started from the object's current
loss_rot/loss_trans/loss, so leftover validation losses feed the next
training update. -/
theorem loss_accumulators_carry_over (t : Trainer) (vset tset : List Sample) (l2 : ℕ → ℚ) :
    ((∀ s ∈ effSamples t.args vset, s.endOfSeq = false) →
      (t.validate vset).state.loss_rot =
        t.loss_rot + (specLeftover t.loss_fn t.scaleFactor (effSamples t.args vset)).1 ∧
      (t.validate vset).state.loss_trans =
        t.loss_trans + (specLeftover t.loss_fn t.scaleFactor (effSamples t.args vset)).2.1 ∧
      (t.validate vset).state.loss =
        t.loss + (specLeftover t.loss_fn t.scaleFactor (effSamples t.args vset)).2.2) ∧
    (¬ t.maxEpochs ≤ t.curEpoch →
      backEvents (t.train tset l2).trace =
        (specBack (t.trainCfg l2 tset) 0 0 t.loss_rot t.loss_trans t.loss
          (effSamples t.args tset)).1) := by
  constructor
  · intro hno
    obtain ⟨v1, v2, v3⟩ := valLoop_losses_noEos t.loss_fn t.scaleFactor
      (effSamples t.args vset) 0 (initValVS t) hno
    obtain ⟨s1, s2, s3⟩ := validate_state_losses t vset
    rw [s1, v1, s2, v2, s3, v3]
    simp [initValVS]
  · intro h
    obtain ⟨b1, _, _, _⟩ :=
      back_trainLoop (t.trainCfg l2 tset) (effSamples t.args tset) 0 (initTrainLS t)
    rw [train_run_trace t tset l2 h, b1]
    simp [initTrainLS, backEvents]

/-- C9 witness: validating the single non-end-of-sequence sample sampF on
a fresh trainer335 leaves loss_rot = 1 in the object; training that object
on the single end-of-sequence sample sampT produces one backward event
whose recorded sums (2, 2, 4) include the validation leftovers. -/
theorem loss_accumulators_carry_over_witness :
    (trainer335.validate [sampF]).state.loss_rot =
      trainer335.loss_rot +
        (specLeftover trainer335.loss_fn trainer335.scaleFactor
          (effSamples trainer335.args [sampF])).1 ∧
    trainer335.loss_rot +
        (specLeftover trainer335.loss_fn trainer335.scaleFactor
          (effSamples trainer335.args [sampF])).1 = 1 ∧
    backEvents ((trainer335.validate [sampF]).state.train [sampT] l2zero).trace =
      (specBack ((trainer335.validate [sampF]).state.trainCfg l2zero [sampT]) 0 0
        (trainer335.validate [sampF]).state.loss_rot
        (trainer335.validate [sampF]).state.loss_trans
        (trainer335.validate [sampF]).state.loss
        (effSamples (trainer335.validate [sampF]).state.args [sampT])).1 ∧
    (specBack ((trainer335.validate [sampF]).state.trainCfg l2zero [sampT]) 0 0
        (trainer335.validate [sampF]).state.loss_rot
        (trainer335.validate [sampF]).state.loss_trans
        (trainer335.validate [sampF]).state.loss
        (effSamples (trainer335.validate [sampF]).state.args [sampT])).1
      = [(0, 2, 2, 4)] := by
  refine ⟨?_, ?_, ?_, ?_⟩
  · exact ((loss_accumulators_carry_over trainer335 [sampF] [sampT] l2zero).1 (by decide)).1
  · norm_num [trainer335, Trainer.make, args335, sampF, effSamples, specLeftover, mseSum]
  · exact (loss_accumulators_carry_over (trainer335.validate [sampF]).state
      [sampF] [sampT] l2zero).2 (by decide)
  · norm_num [Trainer.validate, trainer335, Trainer.make, args335, sampF, sampT,
      effSamples, numIters, initValVS, valLoop, valStep, Trainer.trainCfg, specBack,
      closeFlag, effEOS, l2zero, mseSum, regAdj]

/-! ## Claim C10 (the loss_fn constructor argument is ignored) -/

/-- C10: Trainer.__init__ overwrites the loss_fn constructor argument with
`nn.MSELoss(reduction = sum)`, so two trainers built from different
loss_fn arguments (all other inputs equal) are the same object state, and
train() and validate() produce identical results — identical returned
loss lists, identical traces, identical state updates. -/
theorem loss_fn_argument_ignored (f g : List ℚ → List ℚ → ℚ) (args : Args) (epoch : ℤ)
    (scale : ℚ) (wr : Option ℚ) (tset vset : List Sample) (l2 : ℕ → ℚ) :
    Trainer.make args epoch f scale wr = Trainer.make args epoch g scale wr ∧
    (Trainer.make args epoch f scale wr).train tset l2 =
      (Trainer.make args epoch g scale wr).train tset l2 ∧
    (Trainer.make args epoch f scale wr).validate vset =
      (Trainer.make args epoch g scale wr).validate vset :=
  ⟨rfl, rfl, rfl⟩

end DeepVO
